import Mathlib

/-!
Verification of the zsSystem certificate-management repository.

The Python sources are shallowly embedded as executable Lean definitions:
pure functions become Lean functions, the SQLite database becomes an
explicit record of lists threaded through every operation, Python
exceptions become `Except`, and `datetime.now()` becomes an explicit
clock parameter.  Definitions keep the source's names and structure.
-/

namespace ZsSystem

/-! ## Python primitives

Small models of the Python string operations the sources rely on.
`str.isdigit` accepts every Unicode character of Numeric_Type Decimal
or Digit — ASCII and fullwidth digits, superscripts, the decimal digits
of other scripts — so it is embedded as the exact closed code-point
ranges CPython accepts.  `str.strip`/`str.lower` follow the ASCII
behaviour, which is the identity on the CJK text appearing here. -/

/-- The closed code-point ranges of the characters CPython's
`str.isdigit` accepts (Unicode Numeric_Type Decimal or Digit),
enumerated from the interpreter. -/
def pyDigitRanges : List (Nat × Nat) :=
  [(48, 57), (178, 179), (185, 185), (1632, 1641), (1776, 1785),
   (1984, 1993), (2406, 2415), (2534, 2543), (2662, 2671), (2790, 2799),
   (2918, 2927), (3046, 3055), (3174, 3183), (3302, 3311), (3430, 3439),
   (3558, 3567), (3664, 3673), (3792, 3801), (3872, 3881), (4160, 4169),
   (4240, 4249), (4969, 4977), (6112, 6121), (6160, 6169), (6470, 6479),
   (6608, 6618), (6784, 6793), (6800, 6809), (6992, 7001), (7088, 7097),
   (7232, 7241), (7248, 7257), (8304, 8304), (8308, 8313), (8320, 8329),
   (9312, 9320), (9332, 9340), (9352, 9360), (9450, 9450), (9461, 9469),
   (9471, 9471), (10102, 10110), (10112, 10120), (10122, 10130), (42528, 42537),
   (43216, 43225), (43264, 43273), (43472, 43481), (43504, 43513), (43600, 43609),
   (44016, 44025), (65296, 65305), (66720, 66729), (68160, 68163), (68912, 68921),
   (69216, 69224), (69714, 69722), (69734, 69743), (69872, 69881), (69942, 69951),
   (70096, 70105), (70384, 70393), (70736, 70745), (70864, 70873), (71248, 71257),
   (71360, 71369), (71472, 71481), (71904, 71913), (72016, 72025), (72784, 72793),
   (73040, 73049), (73120, 73129), (92768, 92777), (92864, 92873), (93008, 93017),
   (120782, 120831), (123200, 123209), (123632, 123641), (125264, 125273), (127232, 127242),
   (130032, 130041)]

/-- A character Python's `str.isdigit` accepts. -/
def pyIsDigitChar (c : Char) : Bool :=
  pyDigitRanges.any fun r => r.1 ≤ c.toNat && c.toNat ≤ r.2

/-- Model of Python `str.isdigit`: non-empty and every character a digit. -/
def pyIsDigit (s : String) : Bool :=
  !s.data.isEmpty && s.data.all pyIsDigitChar

/-- Characters removed by Python `str.strip()` (the `\s` class, ASCII part). -/
def pyIsSpace (c : Char) : Bool :=
  c = ' ' || c = '\t' || c = '\n' || c = '\x0d' || c = '\x0b' || c = '\x0c'

/-- Model of Python `str.strip()`: drop whitespace from both ends. -/
def pyStrip (s : String) : String :=
  ⟨(s.data.dropWhile pyIsSpace).reverse.dropWhile pyIsSpace |>.reverse⟩

/-- `utils.validate_account_id`: digits only; 13 digits for role
`student`, 8 digits for role `teacher`, any other role rejected.
Returns the `(valid, message)` pair of the source. -/
def validate_account_id (account_id : String) (role : String) : Bool × String :=
  if !pyIsDigit account_id then
    (false, "学（工）号必须为数字")
  else if role = "student" then
    if account_id.length ≠ 13 then (false, "学生学号必须为13位数字")
    else (true, "")
  else if role = "teacher" then
    if account_id.length ≠ 8 then (false, "教师工号必须为8位数字")
    else (true, "")
  else
    (false, "无效的角色类型")

/-- `utils.validate_password`: at least 8 characters, at least one
alphabetic and one numeric character. -/
def validate_password (password : String) : Bool × String :=
  if password.length < 8 then (false, "密码至少需要8位")
  else if !(password.data.any Char.isAlpha && password.data.any Char.isDigit) then
    (false, "密码必须包含字母和数字")
  else (true, "")

/-- `utils.format_file_size` is UI-only and `utils.validate_file_type` /
`validate_file_size` gate uploads; only the account-id validator is the
subject of a claim, but the size check participates in the intake model. -/
def validate_file_size (file_size : Nat) (max_size : Nat := 10 * 1024 * 1024) :
    Bool × String :=
  if file_size > max_size then (false, "文件大小超过限制")
  else (true, "")

/-! ## A model of Python's `re` module

The sources store their patterns as strings and hand them to
`re.search`/`re.match`, which compile them at call time.  To reproduce
that behaviour (including compile-time errors such as a reversed
character range) we model the subset of Python regex syntax the
repository uses: literals, escapes `\d`/`\s`/`\n`, character classes
with ranges and negation, `.` (with the DOTALL flag), greedy and lazy
`*`/`+`/`?`, counted repetition `{m}`/`{m,}`/`{m,n}`, capture groups,
alternation, and the `^`/`$` anchors.  Matching is leftmost-first
backtracking, as in CPython.  A fuel parameter makes the backtracking
search total; the fuel is generous enough for the patterns at hand and
exhaustion merely reports "no match". -/

/-- One member of a character class: a single character or a range. -/
inductive ClsItem where
  | single (c : Char)
  | range (lo hi : Char)
deriving DecidableEq

/-- Does a character match a class member? -/
def clsItemMatch (c : Char) : ClsItem → Bool
  | .single a => c = a
  | .range lo hi => lo ≤ c && c ≤ hi

/-- Compiled regular expressions. -/
inductive Reg where
  | eps
  | lit (c : Char)
  | dot (dotall : Bool)
  | cls (neg : Bool) (items : List ClsItem)
  | seq (a b : Reg)
  | alt (a b : Reg)
  | star (lazy : Bool) (r : Reg)
  | group (idx : Nat) (r : Reg)
  | bol
  | eol
deriving DecidableEq

/-- Number of nodes, used to size the matcher's fuel. -/
def regSize : Reg → Nat
  | .seq a b => regSize a + regSize b + 1
  | .alt a b => regSize a + regSize b + 1
  | .star _ r => regSize r + 1
  | .group _ r => regSize r + 1
  | _ => 1

/-- Captured groups, most recent first (a later capture of the same
group shadows an earlier one, as in CPython). -/
abbrev Caps := List (Nat × List Char)

/-- Backtracking matcher in continuation-passing style.  `pos` is the
absolute position (for `^`); `s` is the remaining input.  Alternatives
are tried in CPython's order: left branch first, greedy stars longest
first, lazy stars shortest first.  A star body must consume input for
the iteration to continue. -/
def reMat : Nat → Reg → List Char → Nat → Caps →
    (List Char → Nat → Caps → Option (List Char × Caps)) →
    Option (List Char × Caps)
  | 0, _, _, _, _, _ => none
  | fuel+1, r, s, pos, caps, k =>
    match r with
    | .eps => k s pos caps
    | .bol => if pos = 0 then k s pos caps else none
    | .eol => if s = [] ∨ s = ['\n'] then k s pos caps else none
    | .lit c =>
      match s with
      | [] => none
      | c' :: rest => if c' = c then k rest (pos+1) caps else none
    | .dot da =>
      match s with
      | [] => none
      | c' :: rest => if da || c' ≠ '\n' then k rest (pos+1) caps else none
    | .cls neg items =>
      match s with
      | [] => none
      | c' :: rest =>
        if (items.any (clsItemMatch c')).xor neg then k rest (pos+1) caps else none
    | .seq a b =>
      reMat fuel a s pos caps fun s' pos' caps' => reMat fuel b s' pos' caps' k
    | .alt a b =>
      match reMat fuel a s pos caps k with
      | some res => some res
      | none => reMat fuel b s pos caps k
    | .star lz r =>
      if lz then
        match k s pos caps with
        | some res => some res
        | none =>
          reMat fuel r s pos caps fun s' pos' caps' =>
            if s'.length < s.length then reMat fuel (.star lz r) s' pos' caps' k
            else none
      else
        match reMat fuel r s pos caps (fun s' pos' caps' =>
            if s'.length < s.length then reMat fuel (.star lz r) s' pos' caps' k
            else none) with
        | some res => some res
        | none => k s pos caps
    | .group i r =>
      reMat fuel r s pos caps fun s' pos' caps' =>
        k s' pos' ((i, s.take (s.length - s'.length)) :: caps')

/-- Fuel bound for one anchored match attempt. -/
def reFuel (r : Reg) (len : Nat) : Nat := (regSize r + 2) * (len + 2)

/-- A successful match: start position, matched text, captures. -/
structure RMatch where
  start : Nat
  matched : List Char
  caps : Caps
deriving DecidableEq

/-- `match.group(i)` (None when the group never participated). -/
def rmGroup (m : RMatch) (i : Nat) : Option String :=
  (m.caps.find? (·.1 = i)).map fun p => ⟨p.2⟩

/-- Try an anchored match of `r` at successive start positions,
leftmost first — the search loop of `re.search`. -/
def reSearchCore (r : Reg) : List Char → Nat → Option RMatch
  | s, pos =>
    match reMat (reFuel r s.length) r s pos [] (fun rest _ caps => some (rest, caps)) with
    | some (rest, caps) =>
      some ⟨pos, s.take (s.length - rest.length), caps⟩
    | none =>
      match s with
      | [] => none
      | _ :: s' => reSearchCore r s' (pos+1)

/-- `re.search` on a compiled pattern. -/
def reSearch (r : Reg) (s : String) : Option RMatch :=
  reSearchCore r s.data 0

/-- `re.match` on a compiled pattern: anchored at position 0 only. -/
def reMatchStart (r : Reg) (s : String) : Option RMatch :=
  match reMat (reFuel r s.data.length) r s.data 0 []
      (fun rest _ caps => some (rest, caps)) with
  | some (rest, caps) => some ⟨0, s.data.take (s.data.length - rest.length), caps⟩
  | none => none

/-- Errors raised by `re` when compiling a pattern (`re.error`).  The
only interesting one here is a reversed character class range (a class
listing a CJK character, a dash and a slash, as in the award-date
pattern), which CPython rejects with "bad character range". -/
inductive ReErr where
  | badCharacterRange (lo hi : Char)
  | badPattern
deriving DecidableEq

/-- The `\s` whitespace class (ASCII part, all that occurs here). -/
def spaceClsItems : List ClsItem :=
  [.single ' ', .single '\t', .single '\n', .single '\x0d',
   .single '\x0b', .single '\x0c']

/-- The `\d` digit class (decimal digits). -/
def digitClsItems : List ClsItem := [.range '0' '9']

/-- Read one (possibly escaped) literal character inside a class. -/
def clsChar : List Char → Option (Char × List Char)
  | '\\' :: 'n' :: t => some ('\n', t)
  | '\\' :: 't' :: t => some ('\t', t)
  | '\\' :: c :: t => some (c, t)
  | '\\' :: [] => none
  | c :: t => some (c, t)
  | [] => none

/-- Parse the members of a character class up to the closing `]`.
A `-` between two characters is a range and is rejected when reversed,
exactly where CPython reports "bad character range". -/
def clsItems : Nat → List Char → List ClsItem → Except ReErr (List ClsItem × List Char)
  | 0, _, _ => .error .badPattern
  | fuel+1, cs, acc =>
    match cs with
    | ']' :: t => .ok (acc.reverse, t)
    | '\\' :: 'd' :: t => clsItems fuel t (digitClsItems ++ acc)
    | '\\' :: 's' :: t => clsItems fuel t (spaceClsItems ++ acc)
    | _ =>
      match clsChar cs with
      | none => .error .badPattern
      | some (c, t) =>
        match t with
        | '-' :: ']' :: t2 => .ok ((ClsItem.single '-' :: ClsItem.single c :: acc).reverse, t2)
        | '-' :: t2 =>
          match clsChar t2 with
          | none => .error .badPattern
          | some (hi, t3) =>
            if hi < c then .error (.badCharacterRange c hi)
            else clsItems fuel t3 (.range c hi :: acc)
        | _ => clsItems fuel t (.single c :: acc)

/-- `r` repeated exactly `n` times. -/
def repN : Nat → Reg → Reg
  | 0, _ => .eps
  | n+1, r => .seq r (repN n r)

/-- `r` repeated at most `n` times, greedily preferring more. -/
def upToN : Nat → Reg → Reg
  | 0, _ => .eps
  | n+1, r => .alt (.seq r (upToN n r)) .eps

/-- Read a decimal number from the pattern text. -/
def readNum : List Char → Nat → Nat × List Char
  | c :: t, acc =>
    if c.isDigit then readNum t (acc * 10 + (c.toNat - '0'.toNat)) else (acc, c :: t)
  | [], acc => (acc, [])

/-- Parse a `{m}` / `{m,}` / `{m,n}` counted repetition after `{`. -/
def parseRep (a : Reg) (cs : List Char) : Except ReErr (Reg × List Char) :=
  match cs with
  | c :: _ =>
    if c.isDigit then
      let (m, cs1) := readNum cs 0
      match cs1 with
      | '}' :: t => .ok (repN m a, t)
      | ',' :: '}' :: t => .ok (.seq (repN m a) (.star false a), t)
      | ',' :: cs2 =>
        match cs2 with
        | d :: _ =>
          if d.isDigit then
            let (n, cs3) := readNum cs2 0
            match cs3 with
            | '}' :: t =>
              if n < m then .error .badPattern
              else .ok (.seq (repN m a) (upToN (n - m) a), t)
            | _ => .error .badPattern
          else .error .badPattern
        | [] => .error .badPattern
      | _ => .error .badPattern
    else .error .badPattern
  | [] => .error .badPattern

/-- The grammar level being parsed: alternation, concatenation, or a
single quantified atom.  (A tag rather than mutual recursion, so that
the parser is structurally recursive on its fuel and reduces inside the
kernel.) -/
inductive PMode where
  | alt
  | seq
  | item
  | atom
deriving DecidableEq

/-- Recursive-descent pattern parser.  `alt` parses `a|b|…` (lowest
precedence), `seq` a concatenation, `item` one atom with an optional
(possibly lazy) quantifier, `atom` a group, class, escape, anchor, dot
or literal.  Groups are numbered in order of their opening parenthesis;
`da` is the `re.DOTALL` flag. -/
def parseRx : Nat → PMode → Bool → List Char → Nat → Except ReErr (Reg × List Char × Nat)
  | 0, _, _, _, _ => .error .badPattern
  | fuel+1, .alt, da, cs, g => do
    let (r1, cs1, g1) ← parseRx fuel .seq da cs g
    match cs1 with
    | '|' :: cs2 => do
      let (r2, cs3, g2) ← parseRx fuel .alt da cs2 g1
      .ok (.alt r1 r2, cs3, g2)
    | _ => .ok (r1, cs1, g1)
  | fuel+1, .seq, da, cs, g =>
    match cs with
    | [] => .ok (.eps, [], g)
    | ')' :: _ => .ok (.eps, cs, g)
    | '|' :: _ => .ok (.eps, cs, g)
    | _ => do
      let (r1, cs1, g1) ← parseRx fuel .item da cs g
      let (r2, cs2, g2) ← parseRx fuel .seq da cs1 g1
      .ok (.seq r1 r2, cs2, g2)
  | fuel+1, .item, da, cs, g => do
    let (a, cs1, g1) ← parseRx fuel .atom da cs g
    match cs1 with
    | '*' :: '?' :: t => .ok (.star true a, t, g1)
    | '*' :: t => .ok (.star false a, t, g1)
    | '+' :: '?' :: t => .ok (.seq a (.star true a), t, g1)
    | '+' :: t => .ok (.seq a (.star false a), t, g1)
    | '?' :: '?' :: t => .ok (.alt .eps a, t, g1)
    | '?' :: t => .ok (.alt a .eps, t, g1)
    | '{' :: t => do
      let (r, t') ← parseRep a t
      .ok (r, t', g1)
    | _ => .ok (a, cs1, g1)
  | fuel+1, .atom, da, cs, g =>
    match cs with
    | '(' :: t => do
      let gi := g + 1
      let (r, t1, g1) ← parseRx fuel .alt da t gi
      match t1 with
      | ')' :: t2 => .ok (.group gi r, t2, g1)
      | _ => .error .badPattern
    | '[' :: '^' :: t => do
      let (items, t1) ← clsItems (t.length + 1) t []
      .ok (.cls true items, t1, g)
    | '[' :: t => do
      let (items, t1) ← clsItems (t.length + 1) t []
      .ok (.cls false items, t1, g)
    | '\\' :: 'd' :: t => .ok (.cls false digitClsItems, t, g)
    | '\\' :: 's' :: t => .ok (.cls false spaceClsItems, t, g)
    | '\\' :: 'n' :: t => .ok (.lit '\n', t, g)
    | '\\' :: 't' :: t => .ok (.lit '\t', t, g)
    | '\\' :: c :: t => .ok (.lit c, t, g)
    | '\\' :: [] => .error .badPattern
    | '.' :: t => .ok (.dot da, t, g)
    | '^' :: t => .ok (.bol, t, g)
    | '$' :: t => .ok (.eol, t, g)
    | ')' :: _ => .error .badPattern
    | c :: t => .ok (.lit c, t, g)
    | [] => .error .badPattern

/-- Compile a pattern string, as `re.compile` does at each
`re.search`/`re.match` call.  `da` is the `re.DOTALL` flag. -/
def pyCompile (pat : String) (da : Bool := false) : Except ReErr Reg :=
  match parseRx (2 * pat.length + 16) .alt da pat.data 0 with
  | .ok (r, [], _) => .ok r
  | .ok _ => .error .badPattern
  | .error e => .error e

/-- `re.search(pat, text, flags)`: compile, then scan; a compile error
is raised to the caller. -/
def pySearch (pat : String) (da : Bool) (text : String) : Except ReErr (Option RMatch) :=
  (pyCompile pat da).map fun r => reSearch r text

inductive PyVal where
  | null
  | bool (b : Bool)
  | num (lexeme : String)
  | str (s : String)
  | list (xs : List PyVal)
  | dict (kvs : List (String × PyVal))

/-- Skip JSON whitespace. -/
def jsonSkipWs : List Char → List Char
  | c :: t =>
    if c = ' ' ∨ c = '\t' ∨ c = '\n' ∨ c = '\x0d' then jsonSkipWs t else c :: t
  | [] => []

/-- Parse the digits of a JSON number component. -/
def jsonDigits : List Char → List Char × List Char
  | c :: t =>
    if c.isDigit then
      let (ds, rest) := jsonDigits t
      (c :: ds, rest)
    else ([], c :: t)
  | [] => ([], [])

/-- Parse a JSON number lexeme (strict grammar: no leading zeros,
mandatory digits around `.` and after an exponent). -/
def jsonNum (cs : List Char) : Option (String × List Char) := do
  let (sign, cs1) := match cs with
    | '-' :: t => (['-'], t)
    | _ => ([], cs)
  let (intPart, cs2) ← match cs1 with
    | '0' :: t => some (['0'], t)
    | c :: _ =>
      if c.isDigit then
        let (ds, rest) := jsonDigits cs1
        some (ds, rest)
      else none
    | [] => none
  let (fracPart, cs3) ← match cs2 with
    | '.' :: t =>
      match jsonDigits t with
      | ([], _) => none
      | (ds, rest) => some ('.' :: ds, rest)
    | _ => some ([], cs2)
  let (expPart, cs4) ← match cs3 with
    | c :: t =>
      if c = 'e' ∨ c = 'E' then
        let (esign, t1) := match t with
          | '+' :: t' => (['+'], t')
          | '-' :: t' => (['-'], t')
          | _ => ([], t)
        match jsonDigits t1 with
        | ([], _) => none
        | (ds, rest) => some (c :: (esign ++ ds), rest)
      else some ([], cs3)
    | [] => some ([], cs3)
  some (⟨sign ++ intPart ++ fracPart ++ expPart⟩, cs4)

/-- Is this a hexadecimal digit? -/
def isHexChar (c : Char) : Bool :=
  c.isDigit || ('a' ≤ c && c ≤ 'f') || ('A' ≤ c && c ≤ 'F')

/-- Value of a hexadecimal digit. -/
def hexVal (c : Char) : Nat :=
  if c.isDigit then c.toNat - '0'.toNat
  else if 'a' ≤ c ∧ c ≤ 'f' then c.toNat - 'a'.toNat + 10
  else if 'A' ≤ c ∧ c ≤ 'F' then c.toNat - 'A'.toNat + 10
  else 0

/-- Decode one JSON string body character (after the opening quote was
consumed); returns `none` at the closing quote, an error on a bare
control character or bad escape. -/
def parseJsonStrBody : Nat → List Char → List Char → Except Unit (String × List Char)
  | 0, _, _ => .error ()
  | fuel+1, cs, acc =>
    match cs with
    | '"' :: t => .ok (⟨acc.reverse⟩, t)
    | '\\' :: e :: t =>
      match e with
      | '"' => parseJsonStrBody fuel t ('"' :: acc)
      | '\\' => parseJsonStrBody fuel t ('\\' :: acc)
      | '/' => parseJsonStrBody fuel t ('/' :: acc)
      | 'b' => parseJsonStrBody fuel t ('\x08' :: acc)
      | 'f' => parseJsonStrBody fuel t ('\x0c' :: acc)
      | 'n' => parseJsonStrBody fuel t ('\n' :: acc)
      | 'r' => parseJsonStrBody fuel t ('\x0d' :: acc)
      | 't' => parseJsonStrBody fuel t ('\t' :: acc)
      | 'u' =>
        match t with
        | a :: b :: c :: d :: t' =>
          if isHexChar a ∧ isHexChar b ∧ isHexChar c ∧ isHexChar d then
            let n := hexVal a * 4096 + hexVal b * 256 + hexVal c * 16 + hexVal d
            parseJsonStrBody fuel t' (Char.ofNat n :: acc)
          else .error ()
        | _ => .error ()
      | _ => .error ()
    | c :: t =>
      if c.toNat < 32 then .error ()
      else parseJsonStrBody fuel t (c :: acc)
    | [] => .error ()

/-- What the JSON parser is currently reading: one value, the tail of
a non-empty array, or the tail of a non-empty object.  (A tag rather
than mutual recursion, so the parser is structurally recursive on its
fuel and reduces inside the kernel.) -/
inductive JMode where
  | val
  | arr
  | obj
deriving DecidableEq

/-- Intermediate parse results for the three modes. -/
inductive JRes where
  | val (v : PyVal)
  | arr (xs : List PyVal)
  | obj (kvs : List (String × PyVal))

/-- The JSON grammar: `val` parses one value (leading whitespace
allowed), `arr` parses `value (, value)* ]`, `obj` parses
`"key": value (, "key": value)* }`. -/
def parseJson : Nat → JMode → List Char → Except Unit (JRes × List Char)
  | 0, _, _ => .error ()
  | fuel+1, .arr, cs => do
    let (v, rest) ← parseJson fuel .val cs
    match v with
    | .val v =>
      match jsonSkipWs rest with
      | ']' :: t => .ok (.arr [v], t)
      | ',' :: t => do
        let (xs, rest') ← parseJson fuel .arr t
        match xs with
        | .arr xs => .ok (.arr (v :: xs), rest')
        | _ => .error ()
      | _ => .error ()
    | _ => .error ()
  | fuel+1, .obj, cs =>
    match jsonSkipWs cs with
    | '"' :: t => do
      let (key, rest) ← parseJsonStrBody (t.length + 1) t []
      match jsonSkipWs rest with
      | ':' :: t' => do
        let (v, rest') ← parseJson fuel .val t'
        match v with
        | .val v =>
          match jsonSkipWs rest' with
          | '}' :: t'' => .ok (.obj [(key, v)], t'')
          | ',' :: t'' => do
            let (kvs, rest'') ← parseJson fuel .obj t''
            match kvs with
            | .obj kvs => .ok (.obj ((key, v) :: kvs), rest'')
            | _ => .error ()
          | _ => .error ()
        | _ => .error ()
      | _ => .error ()
    | _ => .error ()
  | fuel+1, .val, cs =>
    let cs := jsonSkipWs cs
    match cs with
    | 'n' :: 'u' :: 'l' :: 'l' :: t => .ok (.val .null, t)
    | 't' :: 'r' :: 'u' :: 'e' :: t => .ok (.val (.bool true), t)
    | 'f' :: 'a' :: 'l' :: 's' :: 'e' :: t => .ok (.val (.bool false), t)
    | 'N' :: 'a' :: 'N' :: t => .ok (.val (.num "NaN"), t)
    | 'I' :: 'n' :: 'f' :: 'i' :: 'n' :: 'i' :: 't' :: 'y' :: t => .ok (.val (.num "Infinity"), t)
    | '-' :: 'I' :: 'n' :: 'f' :: 'i' :: 'n' :: 'i' :: 't' :: 'y' :: t => .ok (.val (.num "-Infinity"), t)
    | '"' :: t => do
      let (s, rest) ← parseJsonStrBody (t.length + 1) t []
      .ok (.val (.str s), rest)
    | '[' :: t =>
      match jsonSkipWs t with
      | ']' :: t' => .ok (.val (.list []), t')
      | t' => do
        let (xs, rest) ← parseJson fuel .arr t'
        match xs with
        | .arr xs => .ok (.val (.list xs), rest)
        | _ => .error ()
    | '{' :: t =>
      match jsonSkipWs t with
      | '}' :: t' => .ok (.val (.dict []), t')
      | t' => do
        let (kvs, rest) ← parseJson fuel .obj t'
        match kvs with
        | .obj kvs => .ok (.val (.dict kvs), rest)
        | _ => .error ()
    | c :: _ =>
      if c = '-' ∨ c.isDigit then
        match jsonNum cs with
        | some (lex, rest) => .ok (.val (.num lex), rest)
        | none => .error ()
      else .error ()
    | [] => .error ()

/-- Model of `json.loads`: parse one value and insist the remainder is
whitespace; any failure is a `json.JSONDecodeError`. -/
def pyJsonLoads (s : String) : Except Unit PyVal :=
  match parseJson (4 * s.length + 64) .val s.data with
  | .ok (.val v, rest) => if jsonSkipWs rest = [] then .ok v else .error ()
  | _ => .error ()

/-! ## api_client.py — the extraction reconciler

`CertificateExtractor._parse_response` and `._parse_with_regex`,
embedded over the `PyVal` and `re` models above.  The result dict with
the ten known field keys is the `ExtractedData` structure; a field
holds `PyVal.null` exactly when the Python dict holds `None`. -/

/-- The ten-field result template (`default_data` in the source). -/
structure ExtractedData where
  department : PyVal := .null
  competition_name : PyVal := .null
  student_id : PyVal := .null
  student_name : PyVal := .null
  award_category : PyVal := .null
  award_level : PyVal := .null
  competition_type : PyVal := .null
  organizer : PyVal := .null
  award_date : PyVal := .null
  advisor : PyVal := .null

/-- The ten keys in the dict's insertion order. -/
def tenKeys : List String :=
  ["department", "competition_name", "student_id", "student_name",
   "award_category", "award_level", "competition_type", "organizer",
   "award_date", "advisor"]

/-- Dictionary read on the result template. -/
def edGet (d : ExtractedData) (k : String) : PyVal :=
  if k = "department" then d.department
  else if k = "competition_name" then d.competition_name
  else if k = "student_id" then d.student_id
  else if k = "student_name" then d.student_name
  else if k = "award_category" then d.award_category
  else if k = "award_level" then d.award_level
  else if k = "competition_type" then d.competition_type
  else if k = "organizer" then d.organizer
  else if k = "award_date" then d.award_date
  else if k = "advisor" then d.advisor
  else .null

/-- Dictionary write on the result template. -/
def edSet (d : ExtractedData) (k : String) (v : PyVal) : ExtractedData :=
  if k = "department" then { d with department := v }
  else if k = "competition_name" then { d with competition_name := v }
  else if k = "student_id" then { d with student_id := v }
  else if k = "student_name" then { d with student_name := v }
  else if k = "award_category" then { d with award_category := v }
  else if k = "award_level" then { d with award_level := v }
  else if k = "competition_type" then { d with competition_type := v }
  else if k = "organizer" then { d with organizer := v }
  else if k = "award_date" then { d with award_date := v }
  else if k = "advisor" then { d with advisor := v }
  else d

/-- Uncaught Python exceptions escaping the reconciler: a compile-time
`re.error`, or a `TypeError` from probing a non-dict JSON value. -/
inductive PyExc where
  | reError (e : ReErr)
  | typeError
  | keyError
deriving DecidableEq

/-- Is `needle` a contiguous sublist of `hay`? -/
def listInfix (needle : List Char) : List Char → Bool
  | [] => needle.isEmpty
  | c :: t => needle.isPrefixOf (c :: t) || listInfix needle t

/-- Python `key in v` for a string key: membership for dicts, substring
for strings, element equality for lists; `TypeError` otherwise. -/
def pyIn (key : String) (v : PyVal) : Except PyExc Bool :=
  match v with
  | .dict kvs => .ok (kvs.any (·.1 = key))
  | .str s => .ok (listInfix key.data s.data)
  | .list xs => .ok (xs.any fun x => match x with | .str s => s = key | _ => false)
  | _ => .error .typeError

/-- Python `v[key]` for a string key: dict lookup (last duplicate
wins); `TypeError` for strings and lists, which demand integer
indices. -/
def pyIndexKey (v : PyVal) (key : String) : Except PyExc PyVal :=
  match v with
  | .dict kvs =>
    match kvs.reverse.find? (·.1 = key) with
    | some kv => .ok kv.2
    | none => .error .keyError
  | _ => .error .typeError

/-- Truthiness of a number lexeme: zero mantissas are falsy.  (`NaN`
and `Infinity`, which have no mantissa digits, are truthy.) -/
def numTruthy (lexeme : String) : Bool :=
  let mantissa := lexeme.data.takeWhile fun c => c ≠ 'e' ∧ c ≠ 'E'
  if mantissa.any Char.isDigit then
    mantissa.any fun c => c.isDigit ∧ c ≠ '0'
  else true

/-- Python truthiness of a value. -/
def pyTruthy : PyVal → Bool
  | .null => false
  | .bool b => b
  | .num lex => numTruthy lex
  | .str s => s ≠ ""
  | .list xs => !xs.isEmpty
  | .dict kvs => !kvs.isEmpty

/-- The per-field fallback patterns of `_parse_with_regex`, in the
source dict's insertion order.  The `award_date` pattern contains the
reversed class range that CPython rejects at compile time. -/
def regexPatterns : List (String × String) :=
  [("department", "学院[：:]\\s*([^\\n,，]+)"),
   ("competition_name", "竞赛[项目]*[名称]*[：:]\\s*([^\\n,，]+)"),
   ("student_id", "学号[：:]\\s*(\\d{13})"),
   ("student_name", "[学生]*姓名[：:]\\s*([^\\n,，]+)"),
   ("award_category", "[获奖]*类别[：:]\\s*(国家级|省级)"),
   ("award_level", "[获奖]*等级[：:]\\s*([一二三]等奖|[金银铜]奖|优秀奖)"),
   ("competition_type", "[竞赛]*类型[：:]\\s*([AB]类)"),
   ("organizer", "主办[单位]*[：:]\\s*([^\\n,，]+)"),
   ("award_date", "[获奖]*时间[：:]\\s*(\\d{4}[年-/]\\d{1,2}[月-/]\\d{1,2})"),
   ("advisor", "指导教师[：:]\\s*([^\\n,，]+)")]

/-- One iteration of the `for field, pattern in patterns.items()` loop:
search, and on a match store `match.group(1).strip()`. -/
def regexFieldStep (text : String) (data : ExtractedData) (fp : String × String) :
    Except PyExc ExtractedData :=
  match pySearch fp.2 false text with
  | .error e => .error (.reError e)
  | .ok none => .ok data
  | .ok (some m) => .ok (edSet data fp.1 (.str (pyStrip ((rmGroup m 1).getD ""))))

/-- `CertificateExtractor._parse_with_regex`: ten independent searches
over the raw text, one per field.  (The `re.error` raised when the
ninth pattern is compiled propagates to the caller.) -/
def parse_with_regex (text : String) : Except PyExc ExtractedData :=
  regexPatterns.foldlM (regexFieldStep text) {}

/-- The fenced-JSON-block pattern of `_parse_response`
(compiled with `re.DOTALL`). -/
def fencedJsonPattern : String := "```json\\s*(.*?)\\s*```"

/-- One iteration of the merge loop `for key in default_data: if key in
data and data[key]: default_data[key] = data[key]`. -/
def mergeKeyStep (data : PyVal) (acc : ExtractedData) (key : String) :
    Except PyExc ExtractedData := do
  let present ← pyIn key data
  if present then
    let v ← pyIndexKey data key
    if pyTruthy v then pure (edSet acc key v) else pure acc
  else pure acc

/-- `CertificateExtractor._parse_response`: extract a fenced JSON block
(or fall back to the whole text), `json.loads` it, and merge truthy
values for the ten known keys into the default template; on a
`JSONDecodeError` fall back to `_parse_with_regex`. -/
def parse_response (response_text : String) : Except PyExc ExtractedData :=
  match pySearch fencedJsonPattern true response_text with
  | .error e => .error (.reError e)
  | .ok om =>
    let json_str := match om with
      | some m => (rmGroup m 1).getD ""
      | none => response_text
    match pyJsonLoads json_str with
    | .error _ => parse_with_regex response_text
    | .ok data => tenKeys.foldlM (mergeKeyStep data) {}

/-! ## utils.py — date normalization

`format_date` tries `datetime.strptime` with five formats and reformats
the first success as `YYYY-MM-DD`.  `strptime` is modelled the way
CPython implements it: the format is turned into a regex (`%Y` one to
four digits, `%m`/`%d` one or two digits, everything else literal),
matched greedily at the start, required to consume the whole input, and
the captured fields are then validated against the calendar. -/

/-- Build the matching regex of a `strptime` format string.
Groups 1, 2, 3 capture `%Y`, `%m`, `%d`. -/
def fmtToReg : List Char → Reg
  | '%' :: 'Y' :: t => .seq (.group 1 (.seq digitR (upToN 3 digitR))) (fmtToReg t)
  | '%' :: 'm' :: t => .seq (.group 2 (.seq digitR (upToN 1 digitR))) (fmtToReg t)
  | '%' :: 'd' :: t => .seq (.group 3 (.seq digitR (upToN 1 digitR))) (fmtToReg t)
  | c :: t => .seq (.lit c) (fmtToReg t)
  | [] => .eps
where digitR : Reg := .cls false digitClsItems

/-- Digits to a number (the captures are all-digit by construction). -/
def digitsToNat (cs : List Char) : Nat :=
  cs.foldl (fun acc c => acc * 10 + (c.toNat - '0'.toNat)) 0

/-- Length of a month, with the Gregorian leap rule. -/
def daysInMonth (y m : Nat) : Nat :=
  if m = 2 then
    if y % 4 = 0 ∧ (y % 100 ≠ 0 ∨ y % 400 = 0) then 29 else 28
  else if m = 4 ∨ m = 6 ∨ m = 9 ∨ m = 11 then 30
  else 31

/-- `datetime.strptime(date_str, fmt)` restricted to `%Y%m%d` fields:
`some (y, m, d)` on success, `none` for any `ValueError` (no match,
unconverted trailing data, or an impossible calendar date). -/
def strptimeYmd (fmt : String) (date_str : String) : Option (Nat × Nat × Nat) :=
  match reMatchStart (fmtToReg fmt.data) date_str with
  | none => none
  | some m =>
    if m.matched.length ≠ date_str.data.length then none
    else
      match rmGroup m 1, rmGroup m 2, rmGroup m 3 with
      | some ys, some ms, some ds =>
        let y := digitsToNat ys.data
        let mo := digitsToNat ms.data
        let d := digitsToNat ds.data
        if 1 ≤ y ∧ 1 ≤ mo ∧ mo ≤ 12 ∧ 1 ≤ d ∧ d ≤ daysInMonth y mo then
          some (y, mo, d)
        else none
      | _, _, _ => none

/-- Zero-pad a number to a width, as `strftime` does. -/
def padNum (width n : Nat) : String :=
  let s := toString n
  ⟨List.replicate (width - s.length) '0'⟩ ++ s

/-- The five accepted input formats, in the source's order. -/
def date_formats : List String :=
  ["%Y-%m-%d", "%Y/%m/%d", "%Y年%m月%d日", "%Y.%m.%d", "%Y%m%d"]

/-- `utils.format_date`: first format that parses wins, rewritten to
ISO `YYYY-MM-DD`; `None` when no format matches. -/
def format_date (date_str : String) : Option String :=
  date_formats.firstM fun fmt =>
    (strptimeYmd fmt date_str).map fun ymd =>
      padNum 4 ymd.1 ++ "-" ++ padNum 2 ymd.2.1 ++ "-" ++ padNum 2 ymd.2.2

/-! ## utils.py — image normalization

`resize_image_if_needed` over an explicit file-system state: a current
working directory and a map from absolute paths to image files (byte
size plus pixel dimensions).  `os.path.abspath` is modelled as join
with the cwd followed by `normpath`.  In the downsampling branch the
float scale factor and the emitted PNG's byte size are abstracted (the
new dimensions use exact rational arithmetic truncated to `Nat`, and
the written file gets a nonzero placeholder size); no claim depends on
either value, only on which path is returned and which files exist. -/

/-- An image file's metadata: byte size and pixel dimensions. -/
structure ImgFile where
  byteSize : Nat
  width : Nat
  height : Nat
deriving DecidableEq

/-- File-system state: absolute cwd components and the stored files. -/
structure FileSys where
  cwd : List String
  files : List (String × ImgFile)
deriving DecidableEq

/-- Look a path up in the file system. -/
def fsLookup (fs : FileSys) (p : String) : Option ImgFile :=
  (fs.files.find? (·.1 = p)).map (·.2)

/-- Write a file, replacing any previous one at the same path. -/
def fsWrite (fs : FileSys) (p : String) (f : ImgFile) : FileSys :=
  { fs with files := fs.files.filter (·.1 ≠ p) ++ [(p, f)] }

/-- Split a character list on a separator (`str.split(sep)`). -/
def splitOnChar (sep : Char) : List Char → List (List Char)
  | [] => [[]]
  | c :: t =>
    match splitOnChar sep t with
    | [] => [[c]]
    | h :: rest => if c = sep then [] :: h :: rest else (c :: h) :: rest

/-- Join path components with slashes. -/
def joinSlash : List String → List Char
  | [] => []
  | [x] => x.data
  | x :: rest => x.data ++ '/' :: joinSlash rest

/-- Collapse `.`, `..` and empty components of an absolute path. -/
def normParts (parts : List String) : List String :=
  parts.foldl (fun acc part =>
    if part = "" ∨ part = "." then acc
    else if part = ".." then acc.dropLast
    else acc ++ [part]) []

/-- `os.path.abspath` (POSIX): absolute paths are normalized, relative
ones are joined onto the cwd first. -/
def pyAbspath (cwd : List String) (p : String) : String :=
  let pparts := (splitOnChar '/' p.data).map fun cs => (⟨cs⟩ : String)
  let parts := match p.data with
    | '/' :: _ => pparts
    | _ => cwd ++ pparts
  ⟨'/' :: joinSlash (normParts parts)⟩

/-- `os.path.splitext(p)[1]`: the extension of the final component,
where leading dots never start an extension. -/
def pySplitextExt (p : String) : String :=
  let base := (splitOnChar '/' p.data).getLastD []
  match base.reverse.findIdx? (· = '.') with
  | none => ""
  | some r =>
    let i := base.length - 1 - r
    if (base.take i).any (· ≠ '.') then ⟨base.drop i⟩ else ""

/-- Python `str.replace` on character lists: every occurrence of `old`
is replaced; an empty `old` inserts `rep` at every boundary. -/
def pyReplaceL : Nat → List Char → List Char → List Char → List Char
  | 0, cs, _, _ => cs
  | _+1, [], old, rep => if old.isEmpty then rep else []
  | fuel+1, c :: t, old, rep =>
    if old.isEmpty then rep ++ c :: pyReplaceL fuel t old rep
    else if old.isPrefixOf (c :: t) then
      rep ++ pyReplaceL fuel ((c :: t).drop old.length) old rep
    else c :: pyReplaceL fuel t old rep

/-- Python `str.replace`. -/
def pyReplace (s old rep : String) : String :=
  ⟨pyReplaceL (s.length + 1) s.data old.data rep.data⟩

/-- `utils.resize_image_if_needed`: absolutize the path, require the
file to exist and be non-empty, and downsample (to a sibling
`_resized.png` path) only when a dimension exceeds `max_size`;
otherwise return the absolute path with no write.  Failures carry the
source's wrapped message prefix. -/
def resize_image_if_needed (fs : FileSys) (image_path : String)
    (max_size : Nat := 2048) : Except String (FileSys × String) :=
  let abs_path := pyAbspath fs.cwd image_path
  match fsLookup fs abs_path with
  | none => .error ("图片处理失败: 图片文件不存在: " ++ abs_path)
  | some img =>
    if img.byteSize = 0 then .error ("图片处理失败: 图片文件为空: " ++ abs_path)
    else if max_size < img.width ∨ max_size < img.height then
      let m := max img.width img.height
      let resized_path := pyReplace abs_path (pySplitextExt abs_path) "_resized.png"
      let out : ImgFile :=
        { byteSize := 1, width := img.width * max_size / m,
          height := img.height * max_size / m }
      .ok (fsWrite fs resized_path out, resized_path)
    else .ok (fs, abs_path)

/-! ## models.py / database.py — data model and store

The SQLite store becomes an explicit `DB` record threaded through every
operation; autoincrement primary keys become explicit counters, and
`datetime.now()` an explicit `now : Nat` tick.  `extraction_confidence`
is a float column that no code path ever populates, so it is carried as
an always-`none` placeholder. -/

structure User where
  user_id : Nat
  account_id : String
  name : String
  role : String
  department : String
  email : String
  password_hash : String
  is_active : Bool := true
  created_at : Nat := 0
  created_by : String := "self_register"
deriving DecidableEq

structure Certificate where
  cert_id : Nat
  submitter_id : Nat
  submitter_role : String
  student_id : String
  student_name : String
  department : Option String := none
  competition_name : Option String := none
  award_category : Option String := none
  award_level : Option String := none
  competition_type : Option String := none
  organizer : Option String := none
  award_date : Option String := none
  advisor : String
  file_path : String
  extraction_method : Option String := none
  extraction_confidence : Option Unit := none
  status : String := "draft"
  created_at : Nat := 0
  submitted_at : Option Nat := none
deriving DecidableEq

structure FileRecord where
  file_id : Nat
  user_id : Nat
  file_name : String
  file_path : String
  file_type : String
  file_size : Nat
  upload_time : Nat := 0
deriving DecidableEq

structure DB where
  users : List User := []
  certs : List Certificate := []
  files : List FileRecord := []
  nextUserId : Nat := 1
  nextCertId : Nat := 1
deriving DecidableEq

/-- Replace the first element satisfying `p` by its image under `f`
(an in-place ORM update of the row found by a query). -/
def modifyFirst (p : α → Bool) (f : α → α) : List α → List α
  | [] => []
  | x :: t => if p x then f x :: t else x :: modifyFirst p f t

/-! ## auth.py — password hashing and login -/

/-- `auth.hash_password`.  The SHA-256 digest is modelled by an
injective tag: the system only ever compares digests for equality. -/
def hash_password (password : String) : String := "sha256:" ++ password

/-- `auth.verify_password`. -/
def verify_password (password password_hash : String) : Bool :=
  hash_password password = password_hash

/-- `database.get_user_by_account_id`. -/
def get_user_by_account_id (db : DB) (account_id : String) : Option User :=
  db.users.find? (·.account_id = account_id)

/-- `auth.login_user`: lookup, then active check, then password check,
in that order.  Returns the source's `(ok, user, message)` triple. -/
def login_user (db : DB) (account_id password : String) :
    Bool × Option User × String :=
  match get_user_by_account_id db account_id with
  | none => (false, none, "该学（工）号未注册，请先注册或联系管理员")
  | some user =>
    if !user.is_active then (false, none, "账号已被禁用，请联系管理员")
    else if !verify_password password user.password_hash then
      (false, none, "密码错误")
    else (true, some user, "登录成功！")

structure FieldMap where
  student_id : Option String := none
  student_name : Option String := none
  advisor : Option String := none
  department : Option (Option String) := none
  competition_name : Option (Option String) := none
  award_category : Option (Option String) := none
  award_level : Option (Option String) := none
  competition_type : Option (Option String) := none
  organizer : Option (Option String) := none
  award_date : Option (Option String) := none
deriving DecidableEq

/-- Python truthiness of `cert_data.get(key)` for a required key. -/
def truthyOptStr : Option String → Bool
  | none => false
  | some s => s ≠ ""

/-- The row built and persisted by both `save_draft` (status `draft`,
no submission time) and `submit_certificate` (status `submitted`,
`submitted_at = now`); field accesses mirror the source's
`.get(key)` / `.get(key, default)` / `[key]` usage. -/
def buildCertificate (user : User) (db : DB) (cert_data : FieldMap)
    (file_path : String) (now : Nat) (status : String)
    (submitted_at : Option Nat) : Certificate :=
  { cert_id := db.nextCertId
    submitter_id := user.user_id
    submitter_role := user.role
    student_id := cert_data.student_id.getD ""
    student_name := cert_data.student_name.getD ""
    department := cert_data.department.getD none
    competition_name := cert_data.competition_name.getD none
    award_category := cert_data.award_category.getD none
    award_level := cert_data.award_level.getD none
    competition_type := cert_data.competition_type.getD none
    organizer := cert_data.organizer.getD none
    award_date := cert_data.award_date.getD none
    advisor := cert_data.advisor.getD ""
    file_path := file_path
    extraction_method := some "glm4v"
    status := status
    created_at := now
    submitted_at := submitted_at }

/-- `CertificateProcessor.save_draft`: persist the given `cert_data` as
a new record with status `draft`; returns `(ok, cert_id, message)`. -/
def save_draft (user : User) (db : DB) (file_path : String)
    (cert_data : FieldMap) (now : Nat) :
    (Bool × Option Nat × String) × DB :=
  let certificate := buildCertificate user db cert_data file_path now "draft" none
  ((true, some certificate.cert_id, "草稿保存成功"),
   { db with certs := db.certs ++ [certificate], nextCertId := db.nextCertId + 1 })

/-- `CertificateProcessor.submit_certificate`: required-field checks in
source order, the 13-character student-id check, then persist a new
record directly in status `submitted` with `submitted_at = now`. -/
def submit_certificate (user : User) (db : DB) (cert_data : FieldMap)
    (file_path : String) (now : Nat) : (Bool × String) × DB :=
  if !truthyOptStr cert_data.student_id then ((false, "请填写学号"), db)
  else if !truthyOptStr cert_data.student_name then ((false, "请填写学生姓名"), db)
  else if !truthyOptStr cert_data.advisor then ((false, "请填写指导教师"), db)
  else if (cert_data.student_id.getD "").length ≠ 13 then
    ((false, "学号必须为13位"), db)
  else
    let certificate := buildCertificate user db cert_data file_path now "submitted" (some now)
    ((true, "证书提交成功！"),
     { db with certs := db.certs ++ [certificate], nextCertId := db.nextCertId + 1 })

/-- `CertificateProcessor.get_my_certificates`: the caller's records,
optionally filtered by a truthy status string. -/
def get_my_certificates (user : User) (db : DB)
    (status_filter : Option String := none) : List Certificate :=
  let base := db.certs.filter (·.submitter_id = user.user_id)
  match status_filter with
  | some st => if st ≠ "" then base.filter (·.status = st) else base
  | none => base

/-- The ownership query of `update_certificate`/`delete_certificate`:
the record with this id belonging to the calling user. -/
def ownedCert (user : User) (cert_id : Nat) (c : Certificate) : Bool :=
  c.cert_id = cert_id && c.submitter_id = user.user_id

/-- The field overwrite performed by `update_certificate` on the found
draft: required fields keep their old value when the key is absent, the
seven optional fields take `cert_data.get(key)` (so `None` when
absent). -/
def updateFields (cert_data : FieldMap) (c : Certificate) : Certificate :=
  { c with
    student_id := cert_data.student_id.getD c.student_id
    student_name := cert_data.student_name.getD c.student_name
    department := cert_data.department.getD none
    competition_name := cert_data.competition_name.getD none
    award_category := cert_data.award_category.getD none
    award_level := cert_data.award_level.getD none
    competition_type := cert_data.competition_type.getD none
    organizer := cert_data.organizer.getD none
    award_date := cert_data.award_date.getD none
    advisor := cert_data.advisor.getD c.advisor }

/-- `CertificateProcessor.update_certificate`: not-found/forbidden are
conflated; submitted records are immutable; otherwise overwrite the
fields in place. -/
def update_certificate (user : User) (db : DB) (cert_id : Nat)
    (cert_data : FieldMap) : (Bool × String) × DB :=
  match db.certs.find? (ownedCert user cert_id) with
  | none => ((false, "证书不存在或无权限"), db)
  | some certificate =>
    if certificate.status = "submitted" then ((false, "已提交的证书不可修改"), db)
    else
      ((true, "更新成功"),
       { db with certs := modifyFirst (ownedCert user cert_id) (updateFields cert_data) db.certs })

/-- `CertificateProcessor.delete_certificate`: same gating as update;
a draft is removed from the store. -/
def delete_certificate (user : User) (db : DB) (cert_id : Nat) :
    (Bool × String) × DB :=
  match db.certs.find? (ownedCert user cert_id) with
  | none => ((false, "证书不存在或无权限"), db)
  | some certificate =>
    if certificate.status = "submitted" then ((false, "已提交的证书不可删除"), db)
    else
      ((true, "删除成功"),
       { db with certs := db.certs.eraseP (ownedCert user cert_id) })

/-- The post-recognition tail of
`CertificateProcessor.extract_certificate_info`: role-based autofill of
the extracted dict (students get their own id and name, teachers their
own name as advisor), then award-date normalization.  A non-string
truthy `award_date` makes `strptime` raise `TypeError`, which the
enclosing handler turns into a failure return. -/
def extract_post (user : User) (data : ExtractedData) :
    Except String ExtractedData :=
  let data :=
    if user.role = "student" then
      { data with student_id := .str user.account_id, student_name := .str user.name }
    else if user.role = "teacher" then { data with advisor := .str user.name }
    else data
  if pyTruthy data.award_date then
    match data.award_date with
    | .str s =>
      match format_date s with
      | some formatted => .ok { data with award_date := .str formatted }
      | none => .ok data
    | _ => .error "信息提取失败: TypeError"
  else .ok data

/-! ## admin.py — user deletion and bulk import -/

/-- `AdminManager.delete_user` (behind the constructor's admin-role
check): removes the user and, with it, every certificate and file
record whose owner it is — the certificates' status is never
consulted. -/
def delete_user (admin_user : User) (db : DB) (account_id : String) :
    (Bool × String) × DB :=
  if admin_user.role ≠ "admin" then ((false, "只有管理员可以使用此功能"), db)
  else
    match db.users.find? (·.account_id = account_id) with
    | none => ((false, "用户不存在"), db)
    | some user =>
      ((true, "用户及相关数据已删除"),
       { db with
         certs := db.certs.filter (·.submitter_id ≠ user.user_id),
         files := db.files.filter (·.user_id ≠ user.user_id),
         users := db.users.eraseP (·.account_id = account_id) })

def wStudent : User :=
  { user_id := 1, account_id := "1111111111111", name := "王小明", role := "student"
    department := "计算机学院", email := "wang@example.com"
    password_hash := hash_password "pass1234" }

def wTeacher : User :=
  { user_id := 3, account_id := "20240001", name := "李老师", role := "teacher"
    department := "计算机学院", email := "li@example.com"
    password_hash := hash_password "teach123" }

def wAdmin : User :=
  { user_id := 2, account_id := "admin001", name := "系统管理员", role := "admin"
    department := "教务处", email := "admin@example.com"
    password_hash := hash_password "admin123" }

def wSubmitted : Certificate :=
  { cert_id := 1, submitter_id := 1, submitter_role := "student"
    student_id := "1111111111111", student_name := "王小明", advisor := "李老师"
    competition_name := some "程序设计竞赛", file_path := "/uploads/20250101/user1_a.png"
    extraction_method := some "glm4v", status := "submitted", created_at := 10
    submitted_at := some 10 }

def wDraft : Certificate :=
  { cert_id := 2, submitter_id := 1, submitter_role := "student"
    student_id := "1111111111111", student_name := "王小明", advisor := "李老师"
    department := some "计算机学院", award_level := some "一等奖"
    file_path := "/uploads/20250102/user1_b.png", extraction_method := some "glm4v"
    status := "draft", created_at := 11 }

def wDB : DB :=
  { users := [wStudent, wAdmin, wTeacher], certs := [wSubmitted, wDraft]
    nextUserId := 4, nextCertId := 3 }

def wStudentInactive : User := { wStudent with is_active := false }

def wDBInactive : DB :=
  { wDB with users := [wStudentInactive, wAdmin, wTeacher] }

def wFS : FileSys :=
  { cwd := ["home", "app"]
    files := [("/home/app/uploads/a.png", { byteSize := 2048, width := 1200, height := 800 })] }

end ZsSystem

open ZsSystem

/-- C5: `validate_account_id` accepts iff the identifier is all digits and
its length is exactly 13 for role "student" or exactly 8 for role
"teacher"; any non-digit, wrong length, or other role is rejected.
"Digit" here is Python's `str.isdigit` class — ASCII digits, fullwidth
digits and the other Unicode digit characters — exactly the check the
source performs. -/
theorem C5_validate_account_id (account_id role : String) :
    (validate_account_id account_id role).1 = true ↔
      (account_id.data ≠ [] ∧ account_id.data.all pyIsDigitChar = true) ∧
        ((role = "student" ∧ account_id.length = 13) ∨
         (role = "teacher" ∧ account_id.length = 8)) := by
  have hdig : pyIsDigit account_id = true ↔
      (account_id.data ≠ [] ∧ account_id.data.all pyIsDigitChar = true) := by
    simp [pyIsDigit, List.isEmpty_iff, List.all_eq_true]
  unfold validate_account_id
  by_cases hd : pyIsDigit account_id <;> by_cases hs : role = "student" <;>
    by_cases ht : role = "teacher" <;>
      by_cases h13 : account_id.length = 13 <;>
        by_cases h8 : account_id.length = 8 <;>
          simp_all

/-! ## Helper lemmas -/

/-- `bind` on an `Except.ok` steps into the continuation. -/
theorem exc_ok_bind {ε α β : Type} (a : α) (f : α → Except ε β) :
    (Except.ok a : Except ε α) >>= f = f a := rfl

/-- `bind` on an `Except.error` short-circuits. -/
theorem exc_error_bind {ε α β : Type} (e : ε) (f : α → Except ε β) :
    (Except.error e : Except ε α) >>= f = Except.error e := rfl

/-- A successful `find?` splits the list at the first hit. -/
theorem find?_split {α : Type} {p : α → Bool} {l : List α} {c : α}
    (h : l.find? p = some c) :
    ∃ pre post, l = pre ++ c :: post ∧ (∀ x ∈ pre, p x = false) ∧ p c = true := by
  induction l with
  | nil => simp [List.find?] at h
  | cons a t ih =>
    by_cases hp : p a
    · rw [List.find?_cons_of_pos _ hp] at h
      obtain rfl : a = c := by injection h
      exact ⟨[], t, rfl, by simp, hp⟩
    · rw [List.find?_cons_of_neg _ (by simpa using hp)] at h
      obtain ⟨pre, post, rfl, hpre, hc⟩ := ih h
      exact ⟨a :: pre, post, rfl, by
        intro x hx
        rcases List.mem_cons.1 hx with rfl | hx
        · exact Bool.eq_false_iff.mpr hp
        · exact hpre x hx, hc⟩

/-- `modifyFirst` rewrites exactly the first hit. -/
theorem modifyFirst_append {α : Type} (p : α → Bool) (f : α → α)
    (pre post : List α) (c : α) (hpre : ∀ x ∈ pre, p x = false)
    (hc : p c = true) :
    modifyFirst p f (pre ++ c :: post) = pre ++ f c :: post := by
  induction pre with
  | nil => simp [modifyFirst, hc]
  | cons a t ih =>
    have ha : p a = false := hpre a (by simp)
    simp [modifyFirst, ha]
    exact ih fun x hx => hpre x (List.mem_cons_of_mem a hx)

/-- `eraseP` removes exactly the first hit. -/
theorem eraseP_split {α : Type} (p : α → Bool)
    (pre post : List α) (c : α) (hpre : ∀ x ∈ pre, p x = false)
    (hc : p c = true) :
    (pre ++ c :: post).eraseP p = pre ++ post := by
  rw [List.eraseP_append_right _ fun b hb => by simp [hpre b hb]]
  simp [List.eraseP_cons, hc]

/-- A field-search step of the regex fallback never fails when its
pattern compiles: whether or not the search matches, it returns a
dict. -/
theorem regexFieldStep_isOk (text f p : String) (d : ExtractedData)
    (h : (pyCompile p false).isOk = true) :
    ∃ d', regexFieldStep text d (f, p) = Except.ok d' := by
  unfold regexFieldStep pySearch
  cases hc : pyCompile p false with
  | error e => rw [hc] at h; simp [Except.isOk, Except.toBool] at h
  | ok r =>
    simp only [Except.map]
    cases reSearch r text with
    | none => exact ⟨d, rfl⟩
    | some m => exact ⟨_, rfl⟩

/-! ## Claim theorems -/

/-- C10: login fails for every account whose active flag is false,
whatever the supplied password: the inactive check precedes password
verification, the disabled-account message is returned and no user
object is produced. -/
theorem C10_login_inactive (db : DB) (account_id password : String) (u : User)
    (hfind : get_user_by_account_id db account_id = some u)
    (hinact : u.is_active = false) :
    login_user db account_id password = (false, none, "账号已被禁用，请联系管理员") := by
  unfold login_user
  rw [hfind]
  simp [hinact]

/-- Witness for C10 at a concrete disabled student, with a correct
password. -/
theorem C10_login_inactive_witness :
    get_user_by_account_id wDBInactive "1111111111111" = some wStudentInactive ∧
      wStudentInactive.is_active = false ∧
      login_user wDBInactive "1111111111111" "pass1234" =
        (false, none, "账号已被禁用，请联系管理员") :=
  ⟨by decide, by decide,
    C10_login_inactive wDBInactive "1111111111111" "pass1234" wStudentInactive
      (by decide) (by decide)⟩

/-- C8: on an existing, non-empty image no larger than 2048 pixels in
either dimension, normalization returns the (absolute) input path
unchanged with no new file written, and a second call on that result
does the same. -/
theorem C8_normalize_idempotent (fs : FileSys) (p : String) (f : ImgFile)
    (habs : pyAbspath fs.cwd p = p)
    (hlook : fsLookup fs p = some f)
    (hsz : f.byteSize ≠ 0) (hw : f.width ≤ 2048) (hh : f.height ≤ 2048) :
    resize_image_if_needed fs p = .ok (fs, p) ∧
    ((resize_image_if_needed fs p).bind fun r => resize_image_if_needed r.1 r.2) =
      .ok (fs, p) := by
  have h1 : resize_image_if_needed fs p = .ok (fs, p) := by
    simp only [resize_image_if_needed, habs, hlook]
    simp [hsz, Nat.not_lt.mpr hw, Nat.not_lt.mpr hh]
  refine ⟨h1, ?_⟩
  rw [h1]
  exact h1

/-- Witness for C8 at a concrete 1200×800 image stored under an
absolute path. -/
theorem C8_normalize_idempotent_witness :
    pyAbspath wFS.cwd "/home/app/uploads/a.png" = "/home/app/uploads/a.png" ∧
      fsLookup wFS "/home/app/uploads/a.png" =
        some { byteSize := 2048, width := 1200, height := 800 } ∧
      resize_image_if_needed wFS "/home/app/uploads/a.png" =
        .ok (wFS, "/home/app/uploads/a.png") :=
  ⟨by decide, by decide,
    (C8_normalize_idempotent wFS "/home/app/uploads/a.png"
      { byteSize := 2048, width := 1200, height := 800 }
      (by decide) (by decide) (by decide) (by decide) (by decide)).1⟩

/-- The ninth fallback pattern (`award_date`) contains the reversed
class range, so its search step raises `re.error` for every text. -/
theorem awardDateStep_error (text : String) (d : ExtractedData) :
    regexFieldStep text d
        ("award_date", "[获奖]*时间[：:]\\s*(\\d{4}[年-/]\\d{1,2}[月-/]\\d{1,2})") =
      .error (.reError (.badCharacterRange '年' '/')) := by
  unfold regexFieldStep pySearch
  rw [show pyCompile "[获奖]*时间[：:]\\s*(\\d{4}[年-/]\\d{1,2}[月-/]\\d{1,2})" false =
      .error (.badCharacterRange '年' '/') from rfl]
  rfl

/-- C6: the claim's scenario never happens — on EVERY input text (in
particular on text containing `学号：1234567890123` and no JSON) the
regex fallback raises `re.error` when it reaches the ninth pattern,
whose character class (CJK year character, dash, slash) is a reversed
range; it never returns the field map the claim describes. -/
theorem C6_parse_with_regex_always_raises (text : String) :
    parse_with_regex text = .error (.reError (.badCharacterRange '年' '/')) := by
  obtain ⟨d1, h1⟩ := regexFieldStep_isOk text "department"
    "学院[：:]\\s*([^\\n,，]+)" {} (by rfl)
  obtain ⟨d2, h2⟩ := regexFieldStep_isOk text "competition_name"
    "竞赛[项目]*[名称]*[：:]\\s*([^\\n,，]+)" d1 (by rfl)
  obtain ⟨d3, h3⟩ := regexFieldStep_isOk text "student_id"
    "学号[：:]\\s*(\\d{13})" d2 (by rfl)
  obtain ⟨d4, h4⟩ := regexFieldStep_isOk text "student_name"
    "[学生]*姓名[：:]\\s*([^\\n,，]+)" d3 (by rfl)
  obtain ⟨d5, h5⟩ := regexFieldStep_isOk text "award_category"
    "[获奖]*类别[：:]\\s*(国家级|省级)" d4 (by rfl)
  obtain ⟨d6, h6⟩ := regexFieldStep_isOk text "award_level"
    "[获奖]*等级[：:]\\s*([一二三]等奖|[金银铜]奖|优秀奖)" d5 (by rfl)
  obtain ⟨d7, h7⟩ := regexFieldStep_isOk text "competition_type"
    "[竞赛]*类型[：:]\\s*([AB]类)" d6 (by rfl)
  obtain ⟨d8, h8⟩ := regexFieldStep_isOk text "organizer"
    "主办[单位]*[：:]\\s*([^\\n,，]+)" d7 (by rfl)
  simp only [parse_with_regex, regexPatterns, List.foldlM]
  rw [h1, exc_ok_bind, h2, exc_ok_bind, h3, exc_ok_bind, h4, exc_ok_bind,
    h5, exc_ok_bind, h6, exc_ok_bind, h7, exc_ok_bind, h8, exc_ok_bind,
    awardDateStep_error, exc_error_bind]

/-- C2: the reconcile step is not total — on the non-JSON input
`学号：1234567890123` the JSON parse fails, the regex fallback runs,
and the invalid ninth pattern makes it raise `re.error` instead of
returning the ten-field template. -/
theorem C2_parse_response_raises :
    parse_response "学号：1234567890123" =
      .error (.reError (.badCharacterRange '年' '/')) := rfl

/-- C1 counterexample: an operation of the system does succeed in
deleting a submitted record — `AdminManager.delete_user` removes the
user's certificates regardless of status.  Here the store holds a
certificate in status `submitted`, the admin deletes its owner, the
call reports success and the submitted record is gone. -/
theorem C1_counterexample :
    wSubmitted ∈ wDB.certs ∧ wSubmitted.status = "submitted" ∧
      (delete_user wAdmin wDB "1111111111111").1 = (true, "用户及相关数据已删除") ∧
      wSubmitted ∉ (delete_user wAdmin wDB "1111111111111").2.certs := by
  refine ⟨by decide, by decide, by decide, by decide⟩

/-- C1 (amended): a submitted record is immutable against its owner —
`update` and `delete` both fail with the immutable message and leave
the store unchanged — but `AdminManager.delete_user` succeeds and
removes every certificate of the deleted user, submitted ones
included. -/
theorem C1_submitted_immutable_except_admin_delete (user : User) (db : DB)
    (cert_id : Nat) (cert_data : FieldMap) (c : Certificate) (admin u : User)
    (aid : String) :
    (db.certs.find? (ownedCert user cert_id) = some c → c.status = "submitted" →
      update_certificate user db cert_id cert_data = ((false, "已提交的证书不可修改"), db) ∧
        delete_certificate user db cert_id = ((false, "已提交的证书不可删除"), db)) ∧
    (admin.role = "admin" → db.users.find? (·.account_id = aid) = some u →
      (delete_user admin db aid).1 = (true, "用户及相关数据已删除") ∧
        ∀ cc ∈ db.certs, cc.submitter_id = u.user_id →
          cc ∉ (delete_user admin db aid).2.certs) := by
  constructor
  · intro hfind hsub
    constructor
    · unfold update_certificate
      rw [hfind]
      simp [hsub]
    · unfold delete_certificate
      rw [hfind]
      simp [hsub]
  · intro hrole hfind
    unfold delete_user
    rw [hfind]
    simp only [hrole, ne_eq, not_true_eq_false, if_false]
    refine ⟨trivial, ?_⟩
    intro cc hmem howner hmem'
    have := (List.mem_filter.1 hmem').2
    simp [howner] at this

/-- Witness for C1's amended statement: the owner's update and delete
are refused on the concrete submitted record, while the admin's
`delete_user` call succeeds and removes it. -/
theorem C1_submitted_immutable_except_admin_delete_witness :
    (update_certificate wStudent wDB 1 {} = ((false, "已提交的证书不可修改"), wDB) ∧
      delete_certificate wStudent wDB 1 = ((false, "已提交的证书不可删除"), wDB)) ∧
    ((delete_user wAdmin wDB "1111111111111").1 = (true, "用户及相关数据已删除") ∧
      ∀ cc ∈ wDB.certs, cc.submitter_id = wStudent.user_id →
        cc ∉ (delete_user wAdmin wDB "1111111111111").2.certs) :=
  ⟨(C1_submitted_immutable_except_admin_delete wStudent wDB 1 {} wSubmitted
      wAdmin wStudent "1111111111111").1 (by decide) (by decide),
   (C1_submitted_immutable_except_admin_delete wStudent wDB 1 {} wSubmitted
      wAdmin wStudent "1111111111111").2 (by decide) (by decide)⟩

/-- C3 counterexample: `save_draft` does no role-based autofill — a
student owner saving a field map carrying someone else's student id
gets that id persisted verbatim, not their own account identifier. -/
theorem C3_counterexample :
    wStudent.role = "student" ∧ wStudent.account_id = "1111111111111" ∧
      (save_draft wStudent wDB "/uploads/x.png"
          { student_id := some "9999999999999", student_name := some "张三",
            advisor := some "李老师" } 12).1.1 = true ∧
      ((save_draft wStudent wDB "/uploads/x.png"
          { student_id := some "9999999999999", student_name := some "张三",
            advisor := some "李老师" } 12).2.certs.map (·.student_id)) =
        ["1111111111111", "1111111111111", "9999999999999"] := by
  refine ⟨by decide, by decide, by decide, by decide⟩

/-- C3 (amended): role-based autofill happens earlier in the pipeline,
inside `extract_certificate_info` right after recognition — a student's
extracted map gets the owner's id and name forced, a teacher's gets the
owner's name as advisor — while `save_draft` persists whatever field
map it is given, verbatim, as a new record in status `draft` with no
submission timestamp. -/
theorem C3_autofill_in_extract_not_save_draft (user : User) (data : ExtractedData)
    (db : DB) (file_path : String) (cert_data : FieldMap) (now : Nat) :
    (∀ d', user.role = "student" → extract_post user data = .ok d' →
        d'.student_id = .str user.account_id ∧ d'.student_name = .str user.name) ∧
    (∀ d', user.role = "teacher" → extract_post user data = .ok d' →
        d'.advisor = .str user.name) ∧
    (∃ c, save_draft user db file_path cert_data now =
        ((true, some c.cert_id, "草稿保存成功"),
         { db with certs := db.certs ++ [c], nextCertId := db.nextCertId + 1 }) ∧
      c.student_id = cert_data.student_id.getD "" ∧
      c.student_name = cert_data.student_name.getD "" ∧
      c.advisor = cert_data.advisor.getD "" ∧
      c.department = cert_data.department.getD none ∧
      c.award_date = cert_data.award_date.getD none ∧
      c.status = "draft" ∧ c.submitted_at = none ∧
      c.submitter_id = user.user_id ∧ c.file_path = file_path) := by
  refine ⟨?_, ?_, ?_⟩
  · intro d' hrole hok
    unfold extract_post at hok
    rw [if_pos hrole] at hok
    dsimp only at hok
    split at hok
    all_goals try split at hok
    all_goals try split at hok
    all_goals first
      | (injection hok with h; subst h; exact ⟨rfl, rfl⟩)
      | simp at hok
  · intro d' hrole hok
    have hne : ¬user.role = "student" := by rw [hrole]; decide
    unfold extract_post at hok
    rw [if_neg hne, if_pos hrole] at hok
    dsimp only at hok
    split at hok
    all_goals try split at hok
    all_goals try split at hok
    all_goals first
      | (injection hok with h; subst h; exact rfl)
      | simp at hok
  · exact ⟨buildCertificate user db cert_data file_path now "draft" none,
      rfl, rfl, rfl, rfl, rfl, rfl, rfl, rfl, rfl, rfl⟩

/-- Witness for the amended C3: a student's and a teacher's extracted
maps after `extract_certificate_info`'s tail, on concrete data. -/
theorem C3_autofill_in_extract_not_save_draft_witness :
    wStudent.role = "student" ∧
      extract_post wStudent {} =
        .ok { student_id := .str "1111111111111", student_name := .str "王小明" } ∧
      (({ student_id := .str "1111111111111",
          student_name := .str "王小明" } : ExtractedData).student_id =
          .str wStudent.account_id ∧
        ({ student_id := .str "1111111111111",
           student_name := .str "王小明" } : ExtractedData).student_name =
          .str wStudent.name) ∧
      wTeacher.role = "teacher" ∧
      extract_post wTeacher {} = .ok { advisor := .str "李老师" } ∧
      ({ advisor := .str "李老师" } : ExtractedData).advisor = .str wTeacher.name :=
  ⟨rfl, rfl,
   (C3_autofill_in_extract_not_save_draft wStudent {} wDB "" {} 0).1
     { student_id := .str "1111111111111", student_name := .str "王小明" } rfl rfl,
   rfl, rfl,
   (C3_autofill_in_extract_not_save_draft wTeacher {} wDB "" {} 0).2.1
     { advisor := .str "李老师" } rfl rfl⟩

/-- C4: `submit` rejects a missing `student_id`, `student_name` or
`advisor` with a message naming the (first) missing field and persists
nothing; with all three present it rejects a `student_id` that is not
exactly 13 characters and persists nothing; otherwise it persists one
new record in status `submitted` with the submission timestamp set to
now. -/
theorem C4_submit_validation (user : User) (db : DB) (cert_data : FieldMap)
    (file_path : String) (now : Nat) :
    (truthyOptStr cert_data.student_id = false →
      submit_certificate user db cert_data file_path now = ((false, "请填写学号"), db)) ∧
    (truthyOptStr cert_data.student_id = true →
      truthyOptStr cert_data.student_name = false →
      submit_certificate user db cert_data file_path now = ((false, "请填写学生姓名"), db)) ∧
    (truthyOptStr cert_data.student_id = true →
      truthyOptStr cert_data.student_name = true →
      truthyOptStr cert_data.advisor = false →
      submit_certificate user db cert_data file_path now = ((false, "请填写指导教师"), db)) ∧
    (truthyOptStr cert_data.student_id = true →
      truthyOptStr cert_data.student_name = true →
      truthyOptStr cert_data.advisor = true →
      (cert_data.student_id.getD "").length ≠ 13 →
      submit_certificate user db cert_data file_path now = ((false, "学号必须为13位"), db)) ∧
    (truthyOptStr cert_data.student_id = true →
      truthyOptStr cert_data.student_name = true →
      truthyOptStr cert_data.advisor = true →
      (cert_data.student_id.getD "").length = 13 →
      ∃ c, submit_certificate user db cert_data file_path now =
          ((true, "证书提交成功！"),
           { db with certs := db.certs ++ [c], nextCertId := db.nextCertId + 1 }) ∧
        c.status = "submitted" ∧ c.submitted_at = some now ∧
        c.student_id = cert_data.student_id.getD "" ∧
        c.student_name = cert_data.student_name.getD "" ∧
        c.advisor = cert_data.advisor.getD "" ∧
        c.submitter_id = user.user_id ∧ c.file_path = file_path) := by
  refine ⟨?_, ?_, ?_, ?_, ?_⟩
  · intro h1
    unfold submit_certificate
    simp [h1]
  · intro h1 h2
    unfold submit_certificate
    simp [h1, h2]
  · intro h1 h2 h3
    unfold submit_certificate
    simp [h1, h2, h3]
  · intro h1 h2 h3 h4
    unfold submit_certificate
    simp [h1, h2, h3, h4]
  · intro h1 h2 h3 h4
    refine ⟨buildCertificate user db cert_data file_path now "submitted" (some now), ?_,
      rfl, rfl, rfl, rfl, rfl, rfl, rfl⟩
    unfold submit_certificate
    simp [h1, h2, h3, h4]

/-- Witness for C4: the spec's scenario C (a 12-character student id is
rejected with the length message and nothing is persisted), a missing
advisor named in the error, and a successful direct submit. -/
theorem C4_submit_validation_witness :
    submit_certificate wStudent wDB
        { student_id := some "123456789012", student_name := some "王小明",
          advisor := some "李老师" } "/up/f.png" 9 = ((false, "学号必须为13位"), wDB) ∧
      submit_certificate wStudent wDB
        { student_id := some "1234567890123", student_name := some "王小明" }
        "/up/f.png" 9 = ((false, "请填写指导教师"), wDB) ∧
      ∃ c, submit_certificate wStudent wDB
          { student_id := some "1234567890123", student_name := some "王小明",
            advisor := some "李老师" } "/up/f.png" 9 =
          ((true, "证书提交成功！"),
           { wDB with certs := wDB.certs ++ [c], nextCertId := wDB.nextCertId + 1 }) ∧
        c.status = "submitted" ∧ c.submitted_at = some 9 ∧
        c.student_id = "1234567890123" ∧ c.student_name = "王小明" ∧
        c.advisor = "李老师" ∧ c.submitter_id = wStudent.user_id ∧
        c.file_path = "/up/f.png" :=
  ⟨(C4_submit_validation wStudent wDB
      { student_id := some "123456789012", student_name := some "王小明",
        advisor := some "李老师" } "/up/f.png" 9).2.2.2.1
    (by decide) (by decide) (by decide) (by decide),
   (C4_submit_validation wStudent wDB
      { student_id := some "1234567890123", student_name := some "王小明" }
      "/up/f.png" 9).2.2.1 (by decide) (by decide) (by decide),
   (C4_submit_validation wStudent wDB
      { student_id := some "1234567890123", student_name := some "王小明",
        advisor := some "李老师" } "/up/f.png" 9).2.2.2.2
    (by decide) (by decide) (by decide) (by decide)⟩

/-- C9: updating a draft overwrites the seven optional descriptive
fields with the map's values (null when the key is absent), keeps the
previous `student_id`/`student_name`/`advisor` when absent, and leaves
every other field of the record — and every other record — unchanged. -/
theorem C9_update_draft_frame (user : User) (db : DB) (cert_id : Nat)
    (cert_data : FieldMap) (c : Certificate)
    (hfind : db.certs.find? (ownedCert user cert_id) = some c)
    (hdraft : c.status = "draft") :
    ∃ pre post c',
      db.certs = pre ++ c :: post ∧
      update_certificate user db cert_id cert_data =
        ((true, "更新成功"), { db with certs := pre ++ c' :: post }) ∧
      c'.department = cert_data.department.getD none ∧
      c'.competition_name = cert_data.competition_name.getD none ∧
      c'.award_category = cert_data.award_category.getD none ∧
      c'.award_level = cert_data.award_level.getD none ∧
      c'.competition_type = cert_data.competition_type.getD none ∧
      c'.organizer = cert_data.organizer.getD none ∧
      c'.award_date = cert_data.award_date.getD none ∧
      c'.student_id = cert_data.student_id.getD c.student_id ∧
      c'.student_name = cert_data.student_name.getD c.student_name ∧
      c'.advisor = cert_data.advisor.getD c.advisor ∧
      c'.cert_id = c.cert_id ∧ c'.submitter_id = c.submitter_id ∧
      c'.submitter_role = c.submitter_role ∧ c'.status = c.status ∧
      c'.file_path = c.file_path ∧ c'.extraction_method = c.extraction_method ∧
      c'.extraction_confidence = c.extraction_confidence ∧
      c'.created_at = c.created_at ∧ c'.submitted_at = c.submitted_at := by
  obtain ⟨pre, post, hsplit, hpre, hc⟩ := find?_split hfind
  refine ⟨pre, post, updateFields cert_data c, hsplit, ?_, rfl, rfl, rfl, rfl, rfl,
    rfl, rfl, rfl, rfl, rfl, rfl, rfl, rfl, rfl, rfl, rfl, rfl, rfl, rfl⟩
  unfold update_certificate
  rw [hfind]
  have hne : ¬ c.status = "submitted" := by rw [hdraft]; decide
  simp only [hne, if_false, if_neg hne]
  rw [hsplit, modifyFirst_append _ _ pre post c hpre hc]

/-- Witness for C9 at the concrete draft record, updating with a map
that provides a new competition name but omits the other keys. -/
theorem C9_update_draft_frame_witness :
    wDB.certs.find? (ownedCert wStudent 2) = some wDraft ∧
      wDraft.status = "draft" ∧
      ∃ pre post c',
        wDB.certs = pre ++ wDraft :: post ∧
        update_certificate wStudent wDB 2
            { competition_name := some (some "数学建模竞赛") } =
          ((true, "更新成功"), { wDB with certs := pre ++ c' :: post }) ∧
        c'.department =
          ({ competition_name := some (some "数学建模竞赛") } : FieldMap).department.getD none ∧
        c'.competition_name =
          ({ competition_name := some (some "数学建模竞赛") } : FieldMap).competition_name.getD none ∧
        c'.award_category =
          ({ competition_name := some (some "数学建模竞赛") } : FieldMap).award_category.getD none ∧
        c'.award_level =
          ({ competition_name := some (some "数学建模竞赛") } : FieldMap).award_level.getD none ∧
        c'.competition_type =
          ({ competition_name := some (some "数学建模竞赛") } : FieldMap).competition_type.getD none ∧
        c'.organizer =
          ({ competition_name := some (some "数学建模竞赛") } : FieldMap).organizer.getD none ∧
        c'.award_date =
          ({ competition_name := some (some "数学建模竞赛") } : FieldMap).award_date.getD none ∧
        c'.student_id =
          ({ competition_name := some (some "数学建模竞赛") } : FieldMap).student_id.getD wDraft.student_id ∧
        c'.student_name =
          ({ competition_name := some (some "数学建模竞赛") } : FieldMap).student_name.getD wDraft.student_name ∧
        c'.advisor =
          ({ competition_name := some (some "数学建模竞赛") } : FieldMap).advisor.getD wDraft.advisor ∧
        c'.cert_id = wDraft.cert_id ∧ c'.submitter_id = wDraft.submitter_id ∧
        c'.submitter_role = wDraft.submitter_role ∧ c'.status = wDraft.status ∧
        c'.file_path = wDraft.file_path ∧
        c'.extraction_method = wDraft.extraction_method ∧
        c'.extraction_confidence = wDraft.extraction_confidence ∧
        c'.created_at = wDraft.created_at ∧ c'.submitted_at = wDraft.submitted_at :=
  ⟨by decide, by decide,
   C9_update_draft_frame wStudent wDB 2
     { competition_name := some (some "数学建模竞赛") } wDraft (by decide) (by decide)⟩

